import Mathlib

/-!
Shallow embedding of the x402-solana payment negotiation core
(PayAINetwork/x402-solana), covering:

* the network identifier utilities of `src/types` (`isSolanaNetwork`,
  `isSolanaMainnet`, `isSolanaDevnet`, `toCAIP2Network`, `toSimpleNetwork`);
* the payload builders of `src/utils/helpers.ts`
  (`createPaymentPayload`, `createPaymentPayloadV1`);
* the server payment handler (`extractPayment` of `X402PaymentHandler`);
* the facilitator client of `src/server/facilitator-client.ts`
  (`getAuthHeaders`, `getSupported`, `getFeePayer`, `verifyPayment`,
  `settlePayment`);
* the client negotiator `createPaymentFetch` (v1/v2-aware interceptor) and
  the transaction assembler `createSolanaPaymentTransaction`.

Conventions of the embedding:

* JavaScript strings are `String`, bigints are `Int`, absent / `undefined`
  fields are `Option`.  JavaScript truthiness on strings (`undefined` and
  `""` are falsy) is modelled by `optTruthy` and `jsOr?`.
* Asynchronous functions that can reject are modelled as `Except String α`;
  a raised exception is `.error`, a returned value is `.ok`.
* External effects (the JWT generator, HTTP responses of the facilitator,
  ledger reads, the wallet's signer) are passed in as explicit parameters,
  so each source function becomes a pure function of its inputs and of the
  outcomes the outside world would deliver.
* The base64/JSON codec layer is abstracted: header and body contents are
  carried in decoded form, and serialized transactions are opaque strings.
-/

/-- Decidable equality for `Except`, used to evaluate the embedded
operations at concrete inputs. -/
instance instDecEqExcept {ε α : Type} [DecidableEq ε] [DecidableEq α] :
    DecidableEq (Except ε α)
  | .error e, .error f =>
    match decEq e f with
    | isTrue h => isTrue (h ▸ rfl)
    | isFalse h => isFalse fun hh => h (Except.error.inj hh)
  | .error _, .ok _ => isFalse fun hh => Except.noConfusion hh
  | .ok _, .error _ => isFalse fun hh => Except.noConfusion hh
  | .ok a, .ok b =>
    match decEq a b with
    | isTrue h => isTrue (h ▸ rfl)
    | isFalse h => isFalse fun hh => h (Except.ok.inj hh)

/-- Truthiness of a JavaScript string-or-undefined value:
`undefined` and the empty string are falsy. -/
def optTruthy : Option String → Bool
  | none => false
  | some s => s ≠ ""

/-- JavaScript `a || b` on string-or-undefined values. -/
def jsOr? (a b : Option String) : Option String :=
  if optTruthy a then a else b

/-- JavaScript `a || dflt` where the fallback is a plain string. -/
def jsStrOr (a : Option String) (dflt : String) : String :=
  match jsOr? a (some dflt) with
  | some s => s
  | none => dflt

/-- Decimal digit-list value, most significant digit first. -/
def digitsToNat (l : List Char) : Nat :=
  l.foldl (fun n c => n * 10 + (c.toNat - 48)) 0

/-- JavaScript `BigInt(s)` on the decimal fragment this code base uses:
`""` is `0n`, a non-empty digit string (optionally preceded by a minus
sign) is its value, anything else throws (`none`). -/
def jsBigInt (s : String) : Option Int :=
  match s.toList with
  | [] => some 0
  | '-' :: rest =>
      if rest.isEmpty then none
      else if rest.all (·.isDigit) then some (-(digitsToNat rest : Int))
      else none
  | l =>
      if l.all (·.isDigit) then some ((digitsToNat l : Int))
      else none

/-- Kernel-computable `String.startsWith` over the character lists. -/
def strStartsWith (s pre : String) : Bool :=
  pre.toList.isPrefixOf s.toList

/-- ASCII lower-casing of one character. -/
def lowerChar (c : Char) : Char :=
  if 'A' ≤ c ∧ c ≤ 'Z' then Char.ofNat (c.toNat + 32) else c

/-- ASCII `String.prototype.toLowerCase`, as applied to header names. -/
def lowerStr (s : String) : String :=
  String.mk (s.toList.map lowerChar)

/-- Character-list version of JavaScript `String.prototype.includes`. -/
def listContains (s pat : List Char) : Bool :=
  match s with
  | [] => pat.isEmpty
  | _ :: rest => pat.isPrefixOf s || listContains rest pat

/-- JavaScript `s.includes(pat)`. -/
def jsIncludes (s pat : String) : Bool :=
  listContains s.toList pat.toList

/-! ## Network identifier utilities (`src/types/x402-protocol.ts`) -/

/-- CAIP-2 identifier of Solana mainnet (`SOLANA_MAINNET_CAIP2`). -/
def SOLANA_MAINNET_CAIP2 : String := "solana:5eykt4UsFv8P8NJdTREpY1vzqKqZKvdp"

/-- CAIP-2 identifier of Solana devnet (`SOLANA_DEVNET_CAIP2`). -/
def SOLANA_DEVNET_CAIP2 : String := "solana:EtWTRABZaYq6iMfeYKouRu166VU2xqa1"

/-- Embeds `isSolanaNetwork` of `src/types/x402-protocol.ts`: simple names or any
`solana:`-prefixed CAIP-2 identifier. -/
def isSolanaNetwork (network : String) : Bool :=
  network == "solana" || network == "solana-devnet" ||
    strStartsWith network "solana:"

/-- Embeds `isSolanaMainnet` of `src/types/x402-protocol.ts`. -/
def isSolanaMainnet (network : String) : Bool :=
  network == "solana" || network == SOLANA_MAINNET_CAIP2

/-- Embeds `isSolanaDevnet` of `src/types/x402-protocol.ts`. -/
def isSolanaDevnet (network : String) : Bool :=
  network == "solana-devnet" || network == SOLANA_DEVNET_CAIP2

/-- The TypeScript union `SolanaNetworkSimple = 'solana' | 'solana-devnet'`. -/
inductive SolanaNetworkSimple where
  | solana
  | solanaDevnet
deriving DecidableEq, Repr

/-- The underlying string of a `SolanaNetworkSimple` value. -/
def SolanaNetworkSimple.str : SolanaNetworkSimple → String
  | .solana => "solana"
  | .solanaDevnet => "solana-devnet"

/-- Embeds `toCAIP2Network` of `src/types/x402-protocol.ts`. -/
def toCAIP2Network : SolanaNetworkSimple → String
  | .solana => SOLANA_MAINNET_CAIP2
  | .solanaDevnet => SOLANA_DEVNET_CAIP2

/-- Embeds `toSimpleNetwork` of `src/types/x402-protocol.ts`: mainnet spellings map
to `solana`, everything else falls through to `solana-devnet`. -/
def toSimpleNetwork (network : String) : SolanaNetworkSimple :=
  if network == SOLANA_MAINNET_CAIP2 || network == "solana" then .solana
  else .solanaDevnet

/-! ## Protocol data model -/

/-- Embeds `PaymentRequirements` as this code base reads it.  The nested
`extra` object is flattened into its used fields (`feePayer`,
`description`, `mimeType`); fields that may be absent in incoming JSON are
`Option`.  `maxAmountRequired` is the legacy alias still accepted when
parsing. -/
structure PaymentRequirements where
  scheme : String
  network : String
  amount : Option String
  maxAmountRequired : Option String
  payTo : Option String
  asset : Option String
  maxTimeoutSeconds : Nat
  feePayer : Option String
  description : Option String
  mimeType : Option String
deriving DecidableEq, Repr

/-- Resource descriptor `{url, description, mimeType}` of the v2 wire
format. -/
structure ResourceInfo where
  url : String
  description : String
  mimeType : String
deriving DecidableEq, Repr

/-- Embeds `PaymentRequired` challenge as consumed by the client: the `accepts`
list may be absent in malformed or legacy bodies (`accepts || []` in the
source). -/
structure PaymentRequired where
  x402Version : Nat
  resource : Option ResourceInfo
  accepts : Option (List PaymentRequirements)
  error : Option String
deriving DecidableEq, Repr

/-- Decoded form of an outgoing payment header.  v2 payloads populate
`resource` and `accepted`; v1 payloads instead populate the flat `scheme`
and `network` fields.  `transaction` is the base64 blob of the signed
transaction (opaque here). -/
structure OutPayload where
  x402Version : Nat
  resource : Option ResourceInfo
  accepted : Option PaymentRequirements
  scheme : Option String
  network : Option String
  transaction : String
deriving DecidableEq, Repr

/-- Embeds `createPaymentPayload` of `src/utils/helpers.ts` (v2): wraps the
serialized signed transaction together with the resource descriptor and the
echoed accepted requirement.  The final base64-of-JSON encoding is
abstracted away; the function returns the decoded payload carried by the
`PAYMENT-SIGNATURE` header. -/
def createPaymentPayload (base64Transaction : String)
    (paymentRequirements : PaymentRequirements) (resourceUrl : String) :
    OutPayload :=
  { x402Version := 2
  , resource := some
      { url := resourceUrl
      , description := jsStrOr paymentRequirements.description ""
      , mimeType := jsStrOr paymentRequirements.mimeType "application/json" }
  , accepted := some paymentRequirements
  , scheme := none
  , network := none
  , transaction := base64Transaction }

/-- Embeds `createPaymentPayloadV1` of `src/utils/helpers.ts` (v1): flat payload
`{x402Version: 1, scheme, network, payload.transaction}` carried by the
`X-PAYMENT` header. -/
def createPaymentPayloadV1 (base64Transaction : String)
    (paymentRequirements : PaymentRequirements) : OutPayload :=
  { x402Version := 1
  , resource := none
  , accepted := none
  , scheme := some paymentRequirements.scheme
  , network := some paymentRequirements.network
  , transaction := base64Transaction }

/-! ## Server payment handler: `extractPayment`
(`src/server/payment-handler.ts`, `X402PaymentHandler`) -/

/-- A header value of a plain Node.js headers object:
`string | string[]`. -/
inductive HeaderValue where
  | str (s : String)
  | arr (l : List String)
deriving DecidableEq, Repr

/-- The two header shapes `extractPayment` accepts: a Fetch-API `Headers`
object (lookup by `get`, case-insensitive) or a plain object keyed by exact
header-name strings (Express, Fastify). -/
inductive RequestHeaders where
  | headersObj (entries : List (String × String))
  | plainObj (entries : List (String × HeaderValue))
deriving DecidableEq, Repr

/-- Embeds `Headers.get`: case-insensitive lookup, `null` when absent. -/
def headersGet (entries : List (String × String)) (name : String) :
    Option String :=
  (entries.find? (fun p => lowerStr p.1 == lowerStr name)).map (·.2)

/-- Exact-key lookup in a plain headers object. -/
def plainGet (entries : List (String × HeaderValue)) (name : String) :
    Option HeaderValue :=
  (entries.find? (fun p => p.1 == name)).map (·.2)

/-- Truthiness of a `string | string[] | undefined` header value:
`undefined` and `""` are falsy, arrays (even empty) are truthy. -/
def headerValueTruthy : Option HeaderValue → Bool
  | none => false
  | some (.str s) => s ≠ ""
  | some (.arr _) => true

/-- JavaScript `a || b` on `string | string[] | undefined` values. -/
def jsOrHV (a b : Option HeaderValue) : Option HeaderValue :=
  if headerValueTruthy a then a else b

/-- Embeds `X402PaymentHandler.extractPayment`: reads `X-PAYMENT` /
`x-payment` from either headers shape; for plain objects an array value
contributes its first element (`xPayment[0] || null`). -/
def extractPayment : RequestHeaders → Option String
  | .headersObj entries =>
      jsOr? (headersGet entries "X-PAYMENT") (headersGet entries "x-payment")
  | .plainObj entries =>
      match jsOrHV (plainGet entries "X-PAYMENT")
          (plainGet entries "x-payment") with
      | some (.arr l) =>
          match l.head? with
          | some v => if v == "" then none else some v
          | none => none
      | some (.str s) => if s == "" then none else some s
      | none => none

/-! ## Facilitator client (`src/server/facilitator-client.ts`) -/

/-- A facilitator `SupportedKind`: `extra` is flattened to its only used
field `feePayer`. -/
structure SupportedKind where
  x402Version : Nat
  scheme : String
  network : String
  feePayer : Option String
deriving DecidableEq, Repr

/-- Body of `GET /supported`. -/
structure SupportedResponse where
  kinds : List SupportedKind
deriving DecidableEq, Repr

/-- Facilitator `VerifyResponse`. -/
structure VerifyResponse where
  isValid : Bool
  invalidReason : Option String
deriving DecidableEq, Repr

/-- Facilitator `SettleResponse`. -/
structure SettleResponse where
  success : Bool
  errorReason : Option String
  transaction : String
  network : String
deriving DecidableEq, Repr

/-- An HTTP response from the facilitator as the client observes it:
`ok` is `status` in the 2xx range, `body` is the outcome of
`response.json()` parsed at type `α` (`.error` when parsing throws). -/
structure HttpResp (α : Type) where
  ok : Bool
  status : Nat
  body : Except String α
deriving Repr

/-- Embeds `FacilitatorClientConfig`: facilitator URL and optional API
credentials. -/
structure FacConfig where
  url : String
  apiKeyId : Option String
  apiKeySecret : Option String
deriving DecidableEq, Repr

/-- Embeds `FacilitatorClient.getAuthHeaders`: empty headers without credentials;
with credentials, the JWT generator runs first and its failure is raised.
`jwt` is the outcome `getOrGenerateJwt` would deliver. -/
def getAuthHeaders (cfg : FacConfig) (jwt : Except String String) :
    Except String (List (String × String)) :=
  if ¬ optTruthy cfg.apiKeyId ∨ ¬ optTruthy cfg.apiKeySecret then .ok []
  else
    match jwt with
    | .error e => .error e
    | .ok t => .ok [("Authorization", "Bearer " ++ t)]

/-- Embeds `FacilitatorClient.getSupported`: auth headers, then `GET /supported`;
a fetch rejection propagates, a non-2xx status is raised as
`Facilitator /supported returned <status>`, and otherwise the parsed body
is returned (a body-parse failure also propagating). -/
def getSupported (cfg : FacConfig) (jwt : Except String String)
    (resp : Except String (HttpResp SupportedResponse)) :
    Except String SupportedResponse :=
  match getAuthHeaders cfg jwt with
  | .error e => .error e
  | .ok _ =>
      match resp with
      | .error e => .error e
      | .ok r =>
          if ¬ r.ok then
            .error ("Facilitator /supported returned " ++ toString r.status)
          else r.body

/-- The `find` predicate of `FacilitatorClient.getFeePayer`, verbatim from
the source: scheme `exact`, both networks Solana, and
`kind.network.includes('devnet') === network.includes('devnet')` or exact
string equality. -/
def feePayerKindMatch (network : String) (kind : SupportedKind) : Bool :=
  kind.scheme == "exact" &&
  isSolanaNetwork kind.network &&
  isSolanaNetwork network &&
  (jsIncludes kind.network "devnet" == jsIncludes network "devnet" ||
    kind.network == network)

/-- Error message of `getFeePayer` when no usable kind is found. -/
def feePayerErrorMsg (network : String) : String :=
  "Facilitator does not support network \"" ++ network ++
    "\" with scheme \"exact\" or feePayer not provided"

/-- Embeds `FacilitatorClient.getFeePayer`: discovery via `getSupported`, then the
first kind satisfying `feePayerKindMatch`; a missing match or a falsy
`extra.feePayer` is a raised error. -/
def getFeePayer (cfg : FacConfig) (jwt : Except String String)
    (resp : Except String (HttpResp SupportedResponse)) (network : String) :
    Except String String :=
  match getSupported cfg jwt resp with
  | .error e => .error e
  | .ok supportedData =>
      match supportedData.kinds.find? (feePayerKindMatch network) with
      | none => .error (feePayerErrorMsg network)
      | some kind =>
          match kind.feePayer with
          | none => .error (feePayerErrorMsg network)
          | some f =>
              if f == "" then .error (feePayerErrorMsg network) else .ok f

/-- The local `VerifyResponse` produced whenever anything inside
`verifyPayment`'s `try` block throws or the facilitator answers non-2xx. -/
def verifyLocalFailure : VerifyResponse :=
  { isValid := false, invalidReason := some "unexpected_verify_error" }

/-- The local `SettleResponse` counterpart, carrying the requirement's
network. -/
def settleLocalFailure (paymentRequirements : PaymentRequirements) :
    SettleResponse :=
  { success := false
  , errorReason := some "unexpected_settle_error"
  , transaction := ""
  , network := paymentRequirements.network }

/-- Embeds `FacilitatorClient.verifyPayment`: decode the base64 header
(`decoded` is the outcome of that decode), build auth headers, `POST
/verify`, and return the parsed body; every exception along the way —
decode failure, JWT failure, fetch rejection, body-parse failure — and
every non-2xx status is caught and converted to `verifyLocalFailure`.  The
function never raises. -/
def verifyPayment (cfg : FacConfig) (jwt : Except String String)
    (decoded : Except String OutPayload)
    (resp : Except String (HttpResp VerifyResponse)) :
    Except String VerifyResponse :=
  match decoded with
  | .error _ => .ok verifyLocalFailure
  | .ok _ =>
      match getAuthHeaders cfg jwt with
      | .error _ => .ok verifyLocalFailure
      | .ok _ =>
          match resp with
          | .error _ => .ok verifyLocalFailure
          | .ok r =>
              if ¬ r.ok then .ok verifyLocalFailure
              else
                match r.body with
                | .error _ => .ok verifyLocalFailure
                | .ok v => .ok v

/-- Embeds `FacilitatorClient.settlePayment`: same shape as `verifyPayment`
against `POST /settle`; every failure path is caught and converted to
`settleLocalFailure paymentRequirements`. -/
def settlePayment (cfg : FacConfig) (jwt : Except String String)
    (decoded : Except String OutPayload)
    (paymentRequirements : PaymentRequirements)
    (resp : Except String (HttpResp SettleResponse)) :
    Except String SettleResponse :=
  match decoded with
  | .error _ => .ok (settleLocalFailure paymentRequirements)
  | .ok _ =>
      match getAuthHeaders cfg jwt with
      | .error _ => .ok (settleLocalFailure paymentRequirements)
      | .ok _ =>
          match resp with
          | .error _ => .ok (settleLocalFailure paymentRequirements)
          | .ok r =>
              if ¬ r.ok then .ok (settleLocalFailure paymentRequirements)
              else
                match r.body with
                | .error _ => .ok (settleLocalFailure paymentRequirements)
                | .ok s => .ok s

/-! ## Transaction assembler
(`src/client/transaction-builder.ts`, `createSolanaPaymentTransaction`) -/

/-- SPL Token program id (`TOKEN_PROGRAM_ID`). -/
def TOKEN_PROGRAM_ID : String := "TokenkegQfeZyiNwAJbNbGKPFXCWuBvf9Ss623VQ5DA"

/-- Token-2022 program id (`TOKEN_2022_PROGRAM_ID`). -/
def TOKEN_2022_PROGRAM_ID : String :=
  "TokenzQdBNbLqP5VEhdkAS6EPFLC1PHnBqCXEpPxuEb"

/-- Embeds `DEFAULT_COMPUTE_UNIT_LIMIT` of the transaction builder. -/
def DEFAULT_COMPUTE_UNIT_LIMIT : Nat := 7000

/-- Embeds `DEFAULT_COMPUTE_UNIT_PRICE_MICROLAMPORTS` of the transaction
builder. -/
def DEFAULT_COMPUTE_UNIT_PRICE_MICROLAMPORTS : Nat := 1

/-- The wallet capability: the two accepted address conventions
(`publicKey?.toString()` / `address`) and the optional signing operation
(`none` models a wallet whose `signTransaction` is not a function). -/
structure WalletAdapter (Tx : Type) where
  publicKey : Option String
  address : Option String
  signTransaction : Option (Tx → Tx)

/-- The instructions the assembler emits. -/
inductive Instruction where
  | setComputeUnitLimit (units : Nat)
  | setComputeUnitPrice (microLamports : Nat)
  | transferChecked (source mint destination owner : String) (amount : Int)
      (decimals : Nat) (programId : String)
deriving DecidableEq, Repr

/-- The assembled `VersionedTransaction` (v0 message): fee payer, recent
blockhash and the ordered instruction list. -/
structure SolanaTx where
  payerKey : String
  recentBlockhash : String
  instructions : List Instruction
deriving DecidableEq, Repr

/-- Embeds `getAssociatedTokenAddress`: a deterministic derivation from mint,
owner and token program, modelled as an injective opaque tagging. -/
def associatedTokenAddress (mint owner programId : String) : String :=
  "ata/" ++ mint ++ "/" ++ owner ++ "/" ++ programId

/-- The ledger reads the assembler performs, as the RPC node would answer
them: `accountOwner a` is `getAccountInfo(a)?.owner` (`none` when the
account does not exist), `getMintDecimals mint programId` is the `getMint`
call, and `blockhash` the latest blockhash. -/
structure Ledger where
  accountOwner : String → Option String
  getMintDecimals : String → String → Except String Nat
  blockhash : String

/-- Embeds `createSolanaPaymentTransaction` of the transaction builder, with its
exact sequence of checks: fee payer, wallet address, `payTo`, `asset`,
compute-budget instructions, token-program detection by mint owner, mint
decimals, source/destination ATA existence, amount resolution
(`amount || maxAmountRequired`), `BigInt` conversion, transfer
instruction, blockhash, and finally the wallet's `signTransaction`. -/
def createSolanaPaymentTransaction (wallet : WalletAdapter SolanaTx)
    (paymentRequirements : PaymentRequirements) (ledger : Ledger) :
    Except String SolanaTx :=
  if ¬ optTruthy paymentRequirements.feePayer then
    .error
      "Missing facilitator feePayer in payment requirements (extra.feePayer)."
  else
    let feePayer := paymentRequirements.feePayer.getD ""
    let walletAddress := jsOr? wallet.publicKey wallet.address
    if ¬ optTruthy walletAddress then
      .error "Missing connected Solana wallet address or publicKey"
    else
      let userAddr := walletAddress.getD ""
      if ¬ optTruthy paymentRequirements.payTo then
        .error "Missing payTo in payment requirements"
      else
        let destination := paymentRequirements.payTo.getD ""
        if ¬ optTruthy paymentRequirements.asset then
          .error "Missing token mint for SPL transfer"
        else
          let mintAddr := paymentRequirements.asset.getD ""
          let ix0 := Instruction.setComputeUnitLimit DEFAULT_COMPUTE_UNIT_LIMIT
          let ix1 := Instruction.setComputeUnitPrice
            DEFAULT_COMPUTE_UNIT_PRICE_MICROLAMPORTS
          let programId :=
            if ledger.accountOwner mintAddr == some TOKEN_2022_PROGRAM_ID
            then TOKEN_2022_PROGRAM_ID else TOKEN_PROGRAM_ID
          match ledger.getMintDecimals mintAddr programId with
          | .error e => .error e
          | .ok decimals =>
              let sourceAta := associatedTokenAddress mintAddr userAddr programId
              let destinationAta :=
                associatedTokenAddress mintAddr destination programId
              if (ledger.accountOwner sourceAta).isNone then
                .error ("User does not have an Associated Token Account for "
                  ++ mintAddr ++
                  ". Please create one first or ensure you have the required token.")
              else if (ledger.accountOwner destinationAta).isNone then
                .error
                  ("Destination does not have an Associated Token Account for "
                    ++ mintAddr ++
                    ". The receiver must create their token account before receiving payments.")
              else
                let amountStr := jsOr? paymentRequirements.amount
                  paymentRequirements.maxAmountRequired
                if ¬ optTruthy amountStr then
                  .error "Missing amount in payment requirements"
                else
                  match jsBigInt (amountStr.getD "") with
                  | none => .error "Cannot convert amount to a BigInt"
                  | some amount =>
                      let transferIx := Instruction.transferChecked sourceAta
                        mintAddr destinationAta userAddr amount decimals
                        programId
                      match wallet.signTransaction with
                      | none =>
                          .error
                            "Connected wallet does not support signTransaction"
                      | some sign =>
                          .ok (sign
                            { payerKey := feePayer
                            , recentBlockhash := ledger.blockhash
                            , instructions := [ix0, ix1, transferIx] })

/-! ## Payment negotiator
(`src/client/payment-interceptor.ts`, `createPaymentFetch`, the v1/v2-aware
variant) -/

/-- An HTTP response as the negotiator observes it: its status, the decoded
content of the `PAYMENT-REQUIRED` response header when that header is
present (the base64-JSON codec is abstracted; responses are modelled with
well-formed challenge content), and the decoded JSON body as read on the
v1 fallback path. -/
structure ClientResponse where
  status : Nat
  paymentRequiredHeader : Option PaymentRequired
  bodyJson : PaymentRequired
deriving DecidableEq, Repr

/-- Protocol-version detection of the negotiator: a present
`PAYMENT-REQUIRED` header means v2 and the challenge is decoded from it;
otherwise v1 and the challenge is the response body. -/
def detectChallenge (response : ClientResponse) : PaymentRequired × Nat :=
  match response.paymentRequiredHeader with
  | some paymentRequired => (paymentRequired, 2)
  | none => (response.bodyJson, 1)

/-- The requirement-selection predicate of the negotiator: scheme `exact`
on a Solana-family network (simple or CAIP-2 spelling). -/
def suitableRequirement (req : PaymentRequirements) : Bool :=
  req.scheme == "exact" && isSolanaNetwork req.network

/-- The failures `createPaymentFetch` raises itself (assembler failures are
wrapped in `assemblyError`, matching an exception propagating out of
`createSolanaPaymentTransaction`). -/
inductive NegotiateError where
  | noSuitableRequirement (offeredNetworks : List String)
  | amountExceedsLimit
  | invalidAmount
  | assemblyError (msg : String)
deriving DecidableEq, Repr

/-- Outcome of one run of the payment-aware fetch: the response handed back
to the caller, the number of calls made to the injected transport, and the
payment header attached to the retry (name and decoded payload), `none`
when no retry happened. -/
structure FetchOutcome where
  response : ClientResponse
  transportCalls : Nat
  retryHeader : Option (String × OutPayload)
deriving DecidableEq, Repr

/-- The fetch wrapper returned by `createPaymentFetch`, run on one request.
`firstResponse` and `retryResponse` are what the injected transport
delivers on the first and on the retry call; `assemble` is
`createSolanaPaymentTransaction` applied to the wallet and RPC connection
(returning the serialized signed transaction or raising);
`resourceUrl` is the request URL; `maxValue` the spending ceiling
(`0` = no limit).  Mirrors the source order: status check, protocol
detection, `accepts || []`, requirement selection, ceiling check, assembly,
version-matched payload/header construction, retry. -/
def paymentFetch (firstResponse retryResponse : ClientResponse)
    (assemble : PaymentRequirements → Except String String)
    (resourceUrl : String) (maxValue : Int) :
    Except NegotiateError FetchOutcome :=
  if firstResponse.status ≠ 402 then
    .ok { response := firstResponse, transportCalls := 1, retryHeader := none }
  else
    let paymentRequired := (detectChallenge firstResponse).1
    let protocolVersion := (detectChallenge firstResponse).2
    let parsedPaymentRequirements := paymentRequired.accepts.getD []
    match parsedPaymentRequirements.find? suitableRequirement with
    | none =>
        .error (.noSuitableRequirement
          (parsedPaymentRequirements.map (·.network)))
    | some selectedRequirements =>
        let amountStr := jsStrOr selectedRequirements.amount
          (jsStrOr selectedRequirements.maxAmountRequired "0")
        match jsBigInt amountStr with
        | none => .error .invalidAmount
        | some paymentAmount =>
            if maxValue > 0 ∧ paymentAmount > maxValue then
              .error .amountExceedsLimit
            else
              match assemble selectedRequirements with
              | .error e => .error (.assemblyError e)
              | .ok signedTransaction =>
                  let headerPair :=
                    if protocolVersion == 2 then
                      (("PAYMENT-SIGNATURE" : String),
                        createPaymentPayload signedTransaction
                          selectedRequirements resourceUrl)
                    else
                      (("X-PAYMENT" : String),
                        createPaymentPayloadV1 signedTransaction
                          selectedRequirements)
                  .ok { response := retryResponse
                      , transportCalls := 2
                      , retryHeader := some headerPair }

/-! ## Concrete fixtures used to evaluate the embedded operations -/

/-- A fully-populated devnet requirement offering 1000 atomic units. -/
def fixtureRequirement : PaymentRequirements :=
  { scheme := "exact", network := "solana-devnet", amount := some "1000"
  , maxAmountRequired := none, payTo := some "TreasuryAddr"
  , asset := some "MintAddr", maxTimeoutSeconds := 300
  , feePayer := some "FeePayerAddr", description := some "fixture"
  , mimeType := none }

/-- The fixture requirement at 2,000,000 atomic units. -/
def fixtureReq2M : PaymentRequirements :=
  { fixtureRequirement with amount := some "2000000" }

/-- The fixture requirement with neither `amount` nor the legacy
`maxAmountRequired`. -/
def fixtureReqNoAmount : PaymentRequirements :=
  { fixtureRequirement with amount := none, maxAmountRequired := none }

/-- A requirement on a non-Solana ledger namespace. -/
def fixtureReqForeign : PaymentRequirements :=
  { fixtureRequirement with network := "eip155:1" }

/-- An empty v2 body used where the body is never read. -/
def emptyBody : PaymentRequired :=
  { x402Version := 2, resource := none, accepts := none, error := none }

/-- A v2 challenge offering the given requirements. -/
def fixtureChallenge (reqs : List PaymentRequirements) : PaymentRequired :=
  { x402Version := 2, resource := none, accepts := some reqs
  , error := some "Payment required" }

/-- A 402 response carrying the challenge in the `PAYMENT-REQUIRED`
header. -/
def fixtureResp402Header (reqs : List PaymentRequirements) : ClientResponse :=
  { status := 402, paymentRequiredHeader := some (fixtureChallenge reqs)
  , bodyJson := emptyBody }

/-- A 402 response carrying the challenge only in the body. -/
def fixtureResp402Body (reqs : List PaymentRequirements) : ClientResponse :=
  { status := 402, paymentRequiredHeader := none
  , bodyJson := fixtureChallenge reqs }

/-- A plain 200 response. -/
def fixtureResp200 : ClientResponse :=
  { status := 200, paymentRequiredHeader := none, bodyJson := emptyBody }

/-- A wallet exposing an address and a pass-through signer. -/
def fixtureWallet : WalletAdapter SolanaTx :=
  { publicKey := some "UserWalletAddr", address := none
  , signTransaction := some id }

/-- A ledger on which every account exists, every mint has 6 decimals and
the blockhash is fixed. -/
def fixtureLedger : Ledger :=
  { accountOwner := fun _ => some "AccountOwner"
  , getMintDecimals := fun _ _ => .ok 6
  , blockhash := "Blockhash" }

/-- A decoded payment payload used where only its presence matters. -/
def fixturePayload : OutPayload :=
  createPaymentPayloadV1 "TX" fixtureRequirement

/-- Facilitator configuration without API credentials. -/
def fixtureCfgNoAuth : FacConfig :=
  { url := "https://facilitator.payai.network", apiKeyId := none
  , apiKeySecret := none }

/-- Facilitator configuration with API credentials. -/
def fixtureCfgAuth : FacConfig :=
  { url := "https://facilitator.payai.network", apiKeyId := some "key-id"
  , apiKeySecret := some "key-secret" }

/-- Claim C9: for each of the two recognized CAIP-2 identifiers,
`toCAIP2Network (toSimpleNetwork id) = id`; and every other `solana:`
identifier resolves to the devnet simple name rather than erroring. -/
theorem network_roundtrip_and_default :
    toCAIP2Network (toSimpleNetwork SOLANA_MAINNET_CAIP2) =
      SOLANA_MAINNET_CAIP2 ∧
    toCAIP2Network (toSimpleNetwork SOLANA_DEVNET_CAIP2) =
      SOLANA_DEVNET_CAIP2 ∧
    ∀ s : String, strStartsWith s "solana:" = true →
      s ≠ SOLANA_MAINNET_CAIP2 → s ≠ SOLANA_DEVNET_CAIP2 →
      toSimpleNetwork s = .solanaDevnet := by
  refine ⟨by decide, by decide, ?_⟩
  intro s hpre hm _hd
  have hsol : s ≠ "solana" := by
    intro heq
    subst heq
    exact absurd hpre (by decide)
  simp [toSimpleNetwork, hm, hsol]

/-- Witness for C9 at the unknown identifier `solana:testnet`. -/
theorem network_roundtrip_and_default_witness :
    toSimpleNetwork "solana:testnet" = .solanaDevnet :=
  network_roundtrip_and_default.2.2 "solana:testnet" (by decide) (by decide)
    (by decide)

/-- Claim C8: a first response whose status is not 402 is returned
unmodified after exactly one transport call, with no retry header and no
use of the assembler (the outcome is the same for every `assemble`). -/
theorem non402_single_call_passthrough
    (firstResponse retryResponse : ClientResponse)
    (assemble : PaymentRequirements → Except String String)
    (resourceUrl : String) (maxValue : Int)
    (h : firstResponse.status ≠ 402) :
    paymentFetch firstResponse retryResponse assemble resourceUrl maxValue =
      .ok { response := firstResponse, transportCalls := 1
          , retryHeader := none } := by
  simp [paymentFetch, h]

/-- Witness for C8 at a 200 response. -/
theorem non402_single_call_passthrough_witness :
    paymentFetch fixtureResp200 (fixtureResp402Body []) (fun _ => .ok "TX")
      "https://api.example.com/r" 0 =
      .ok { response := fixtureResp200, transportCalls := 1
          , retryHeader := none } :=
  non402_single_call_passthrough fixtureResp200 (fixtureResp402Body [])
    (fun _ => .ok "TX") "https://api.example.com/r" 0 (by decide)

/-- Claim C3: `verifyPayment` and `settlePayment` never raise (they always
return an `.ok` result); a non-2xx facilitator status yields the local
failure result (`unexpected_verify_error` / the settle counterpart carrying
the requirement's network); a 2xx status yields the facilitator's own body
verbatim, including semantic rejections. -/
theorem verify_settle_transport_failures_are_data
    (cfg : FacConfig) (jwt : Except String String)
    (authHeaders : List (String × String))
    (hauth : getAuthHeaders cfg jwt = .ok authHeaders)
    (decodedV decodedS : OutPayload) (req : PaymentRequirements)
    (rv : HttpResp VerifyResponse) (rs : HttpResp SettleResponse) :
    (rv.ok = false →
      verifyPayment cfg jwt (.ok decodedV) (.ok rv) = .ok verifyLocalFailure) ∧
    (rs.ok = false →
      settlePayment cfg jwt (.ok decodedS) req (.ok rs) =
        .ok (settleLocalFailure req)) ∧
    (∀ v, rv.ok = true → rv.body = .ok v →
      verifyPayment cfg jwt (.ok decodedV) (.ok rv) = .ok v) ∧
    (∀ s, rs.ok = true → rs.body = .ok s →
      settlePayment cfg jwt (.ok decodedS) req (.ok rs) = .ok s) ∧
    (∀ decoded resp, ∃ v,
      verifyPayment cfg jwt decoded resp = .ok v) ∧
    (∀ decoded resp, ∃ s,
      settlePayment cfg jwt decoded req resp = .ok s) := by
  refine ⟨?_, ?_, ?_, ?_, ?_, ?_⟩
  · intro hko
    simp [verifyPayment, hauth, hko]
  · intro hko
    simp [settlePayment, hauth, hko]
  · intro v hok hbody
    simp [verifyPayment, hauth, hok, hbody]
  · intro s hok hbody
    simp [settlePayment, hauth, hok, hbody]
  · intro decoded resp
    cases decoded with
    | error e => exact ⟨verifyLocalFailure, rfl⟩
    | ok d =>
        cases hja : getAuthHeaders cfg jwt with
        | error e => exact ⟨verifyLocalFailure, by simp [verifyPayment, hja]⟩
        | ok hs =>
            cases resp with
            | error e => exact ⟨verifyLocalFailure, by simp [verifyPayment, hja]⟩
            | ok r =>
                by_cases hok : r.ok
                · cases hb : r.body with
                  | error e =>
                      exact ⟨verifyLocalFailure, by simp [verifyPayment, hja, hok, hb]⟩
                  | ok v => exact ⟨v, by simp [verifyPayment, hja, hok, hb]⟩
                · exact ⟨verifyLocalFailure, by
                    simp [verifyPayment, hja, Bool.of_not_eq_true hok]⟩
  · intro decoded resp
    cases decoded with
    | error e => exact ⟨settleLocalFailure req, rfl⟩
    | ok d =>
        cases hja : getAuthHeaders cfg jwt with
        | error e => exact ⟨settleLocalFailure req, by simp [settlePayment, hja]⟩
        | ok hs =>
            cases resp with
            | error e => exact ⟨settleLocalFailure req, by simp [settlePayment, hja]⟩
            | ok r =>
                by_cases hok : r.ok
                · cases hb : r.body with
                  | error e =>
                      exact ⟨settleLocalFailure req, by simp [settlePayment, hja, hok, hb]⟩
                  | ok s => exact ⟨s, by simp [settlePayment, hja, hok, hb]⟩
                · exact ⟨settleLocalFailure req, by
                    simp [settlePayment, hja, Bool.of_not_eq_true hok]⟩

/-- Witness for C3: a 500 from `/verify` yields the local failure result. -/
theorem verify_settle_transport_failures_are_data_witness :
    verifyPayment fixtureCfgNoAuth (.ok "") (.ok fixturePayload)
      (.ok { ok := false, status := 500, body := .error "no body" }) =
      .ok verifyLocalFailure :=
  (verify_settle_transport_failures_are_data fixtureCfgNoAuth (.ok "") []
    (by decide) fixturePayload fixturePayload fixtureRequirement
    { ok := false, status := 500, body := .error "no body" }
    { ok := false, status := 500, body := .error "no body" }).1 rfl

/-- Claim C7 counterexample: with API credentials configured and token
acquisition failing, `verifyPayment` does not propagate the failure as a
raised exception; it converts it into the local failure result, even though
the facilitator would have answered 2xx. -/
theorem verify_converts_jwt_failure_to_local_result :
    verifyPayment fixtureCfgAuth (.error "jwt acquisition failed")
      (.ok fixturePayload)
      (.ok { ok := true, status := 200
           , body := .ok { isValid := true, invalidReason := none } }) =
      .ok verifyLocalFailure := by decide

/-- Claim C7 (amended): when credentials are configured every operation
obtains the bearer token first, and a token-acquisition failure propagates
as a raised exception from `getSupported` and `getFeePayer`, while
`verifyPayment` and `settlePayment` catch it and return their local
failure results instead. -/
theorem token_failure_propagation_by_operation
    (cfg : FacConfig) (e : String)
    (hid : optTruthy cfg.apiKeyId = true)
    (hsec : optTruthy cfg.apiKeySecret = true)
    (decodedV decodedS : OutPayload) (req : PaymentRequirements)
    (respS : Except String (HttpResp SupportedResponse))
    (respV : Except String (HttpResp VerifyResponse))
    (respT : Except String (HttpResp SettleResponse)) (network : String) :
    getSupported cfg (.error e) respS = .error e ∧
    getFeePayer cfg (.error e) respS network = .error e ∧
    verifyPayment cfg (.error e) (.ok decodedV) respV =
      .ok verifyLocalFailure ∧
    settlePayment cfg (.error e) (.ok decodedS) req respT =
      .ok (settleLocalFailure req) := by
  have hauth : getAuthHeaders cfg (.error e) = .error e := by
    simp [getAuthHeaders, hid, hsec]
  exact ⟨by simp [getSupported, hauth],
    by simp [getFeePayer, getSupported, hauth],
    by simp [verifyPayment, hauth],
    by simp [settlePayment, hauth]⟩

/-- Witness for the amended C7 with concrete credentials and failure. -/
theorem token_failure_propagation_by_operation_witness :
    getSupported fixtureCfgAuth (.error "jwt down") (.error "unreached") =
      .error "jwt down" :=
  (token_failure_propagation_by_operation fixtureCfgAuth "jwt down"
    (by decide) (by decide) fixturePayload fixturePayload fixtureRequirement
    (.error "unreached") (.error "unreached") (.error "unreached")
    "solana").1

/-- Claim C1 (code bug): `extractPayment` never returns the v2
`PAYMENT-SIGNATURE` header — in either headers shape it reads only
`X-PAYMENT` — and for plain header objects even `X-PAYMENT` is matched only
in the two exact spellings, so a mixed-case `X-Payment` is missed too. -/
theorem extractPayment_ignores_v2_header :
    extractPayment (.plainObj [("PAYMENT-SIGNATURE", .str "abc")]) = none ∧
    extractPayment (.headersObj [("PAYMENT-SIGNATURE", "abc")]) = none ∧
    extractPayment (.plainObj [("X-Payment", .str "abc")]) = none ∧
    extractPayment (.plainObj [("x-payment", .str "abc")]) = some "abc" ∧
    extractPayment (.headersObj [("x-PaYmEnT", "abc")]) = some "abc" := by
  decide

/-- Claim C2 (code bug): `getFeePayer` with the mainnet argument `solana`
accepts a kind whose network is the CAIP-2 devnet identifier (which does
not contain the substring `devnet`), returning its fee payer instead of
raising the unsupported-network error the matching rule promises. -/
theorem getFeePayer_crossfamily_match :
    getFeePayer fixtureCfgNoAuth (.ok "")
      (.ok { ok := true, status := 200
           , body := .ok { kinds :=
               [{ x402Version := 2, scheme := "exact"
                , network := SOLANA_DEVNET_CAIP2
                , feePayer := some "DevnetFeePayer" }] } })
      "solana" = .ok "DevnetFeePayer" := by decide

/-- Claim C5: when a non-zero ceiling is configured and the selected
requirement's resolved amount (from `amount` or the legacy
`maxAmountRequired`) strictly exceeds it, the negotiator fails with the
amount-exceeds-limit error, for every assembler — so before any transaction
assembly or wallet interaction. -/
theorem ceiling_exceeded_fails_before_assembly
    (firstResponse retryResponse : ClientResponse) (resourceUrl : String)
    (maxValue amt : Int) (sel : PaymentRequirements)
    (h402 : firstResponse.status = 402)
    (hfind : ((detectChallenge firstResponse).1.accepts.getD []).find?
      suitableRequirement = some sel)
    (hamt : jsBigInt (jsStrOr sel.amount (jsStrOr sel.maxAmountRequired "0"))
      = some amt)
    (hpos : 0 < maxValue) (hgt : maxValue < amt) :
    ∀ assemble : PaymentRequirements → Except String String,
      paymentFetch firstResponse retryResponse assemble resourceUrl maxValue
        = .error .amountExceedsLimit := by
  intro assemble
  unfold paymentFetch
  rw [if_neg (by simp [h402])]
  simp only [hfind, hamt]
  rw [if_pos ⟨hpos, hgt⟩]

/-- Witness for C5: ceiling 1,000,000 atomic units against a requirement of
2,000,000. -/
theorem ceiling_exceeded_fails_before_assembly_witness :
    paymentFetch (fixtureResp402Header [fixtureReq2M]) fixtureResp200
      (fun _ => .ok "TX") "https://api.example.com/r" 1000000 =
      .error .amountExceedsLimit :=
  ceiling_exceeded_fails_before_assembly (fixtureResp402Header [fixtureReq2M])
    fixtureResp200 "https://api.example.com/r" 1000000 2000000 fixtureReq2M
    (by decide) (by decide) (by decide) (by decide) (by decide)
    (fun _ => .ok "TX")

/-- Claim C6: when the offered requirement list contains no entry with
scheme `exact` on a Solana-family network, the negotiator fails with the
no-suitable-requirement error carrying the offered networks, for every
assembler — so the signing capability is never invoked. -/
theorem no_suitable_requirement_fails_without_signing
    (firstResponse retryResponse : ClientResponse) (resourceUrl : String)
    (maxValue : Int)
    (h402 : firstResponse.status = 402)
    (hnone : ∀ req ∈ (detectChallenge firstResponse).1.accepts.getD [],
      ¬ (req.scheme = "exact" ∧ isSolanaNetwork req.network = true)) :
    ∀ assemble : PaymentRequirements → Except String String,
      paymentFetch firstResponse retryResponse assemble resourceUrl maxValue
        = .error (.noSuitableRequirement
            (((detectChallenge firstResponse).1.accepts.getD []).map
              (·.network))) := by
  intro assemble
  have hfind : ((detectChallenge firstResponse).1.accepts.getD []).find?
      suitableRequirement = none := by
    rw [List.find?_eq_none]
    intro req hreq hval
    apply hnone req hreq
    simpa [suitableRequirement, Bool.and_eq_true, beq_iff_eq] using hval
  unfold paymentFetch
  rw [if_neg (by simp [h402])]
  simp only [hfind]

/-- Witness for C6: a challenge offering only an `eip155:1` requirement. -/
theorem no_suitable_requirement_fails_without_signing_witness :
    paymentFetch (fixtureResp402Header [fixtureReqForeign]) fixtureResp200
      (fun _ => .ok "TX") "https://api.example.com/r" 0 =
      .error (.noSuitableRequirement ["eip155:1"]) :=
  no_suitable_requirement_fails_without_signing
    (fixtureResp402Header [fixtureReqForeign]) fixtureResp200
    "https://api.example.com/r" 0 (by decide) (by decide)
    (fun _ => .ok "TX")

/-- Claim C4: whenever the negotiator retries after a 402, the retry
header's name and the payload shape are chosen together from the detected
protocol generation: a present `PAYMENT-REQUIRED` header (whose decoded
challenge supplies the selected requirement) yields `PAYMENT-SIGNATURE`
with a payload carrying `resource` and `accepted`; an absent header (with
the challenge decoded from the body) yields `X-PAYMENT` with a flat
payload carrying neither. -/
theorem retry_header_matches_protocol_generation
    (firstResponse retryResponse : ClientResponse)
    (assemble : PaymentRequirements → Except String String)
    (resourceUrl : String) (maxValue : Int) (out : FetchOutcome)
    (headerName : String) (payload : OutPayload)
    (h402 : firstResponse.status = 402)
    (hrun : paymentFetch firstResponse retryResponse assemble resourceUrl
      maxValue = .ok out)
    (hhdr : out.retryHeader = some (headerName, payload)) :
    (∀ challenge, firstResponse.paymentRequiredHeader = some challenge →
      headerName = "PAYMENT-SIGNATURE" ∧ payload.resource.isSome = true ∧
      ∃ sel ∈ challenge.accepts.getD [], payload.accepted = some sel) ∧
    (firstResponse.paymentRequiredHeader = none →
      headerName = "X-PAYMENT" ∧ payload.resource = none ∧
      payload.accepted = none ∧
      ∃ sel ∈ firstResponse.bodyJson.accepts.getD [],
        payload.scheme = some sel.scheme ∧
          payload.network = some sel.network) := by
  unfold paymentFetch at hrun
  rw [if_neg (by simp [h402])] at hrun
  constructor
  · intro challenge hch
    simp only [detectChallenge, hch] at hrun
    cases hfind : (challenge.accepts.getD []).find? suitableRequirement with
    | none =>
        simp only [hfind] at hrun
        exact Except.noConfusion hrun
    | some sel =>
        simp only [hfind] at hrun
        cases hamt : jsBigInt (jsStrOr sel.amount
            (jsStrOr sel.maxAmountRequired "0")) with
        | none =>
            simp only [hamt] at hrun
            exact Except.noConfusion hrun
        | some pa =>
            simp only [hamt] at hrun
            by_cases hceil : maxValue > 0 ∧ pa > maxValue
            · rw [if_pos hceil] at hrun
              exact Except.noConfusion hrun
            · rw [if_neg hceil] at hrun
              cases hasm : assemble sel with
              | error e =>
                  simp only [hasm] at hrun
                  exact Except.noConfusion hrun
              | ok tx =>
                  simp only [hasm] at hrun
                  injection hrun with h
                  subst h
                  simp only [FetchOutcome.retryHeader,
                    Option.some.injEq, Prod.mk.injEq] at hhdr
                  norm_num at hhdr
                  obtain ⟨hn, hp⟩ := hhdr
                  refine ⟨hn.symm, ?_,
                    ⟨sel, List.mem_of_find?_eq_some hfind, ?_⟩⟩
                  · rw [← hp]
                    rfl
                  · rw [← hp]
                    rfl
  · intro hch
    simp only [detectChallenge, hch] at hrun
    cases hfind : (firstResponse.bodyJson.accepts.getD []).find?
        suitableRequirement with
    | none =>
        simp only [hfind] at hrun
        exact Except.noConfusion hrun
    | some sel =>
        simp only [hfind] at hrun
        cases hamt : jsBigInt (jsStrOr sel.amount
            (jsStrOr sel.maxAmountRequired "0")) with
        | none =>
            simp only [hamt] at hrun
            exact Except.noConfusion hrun
        | some pa =>
            simp only [hamt] at hrun
            by_cases hceil : maxValue > 0 ∧ pa > maxValue
            · rw [if_pos hceil] at hrun
              exact Except.noConfusion hrun
            · rw [if_neg hceil] at hrun
              cases hasm : assemble sel with
              | error e =>
                  simp only [hasm] at hrun
                  exact Except.noConfusion hrun
              | ok tx =>
                  simp only [hasm] at hrun
                  injection hrun with h
                  subst h
                  simp only [FetchOutcome.retryHeader,
                    Option.some.injEq, Prod.mk.injEq] at hhdr
                  norm_num at hhdr
                  obtain ⟨hn, hp⟩ := hhdr
                  refine ⟨hn.symm, ?_, ?_,
                    ⟨sel, List.mem_of_find?_eq_some hfind, ?_, ?_⟩⟩ <;>
                    rw [← hp] <;> rfl

/-- Witness for C4, v2 side: a header-carried challenge yields the
`PAYMENT-SIGNATURE` retry header with `resource` and `accepted`
populated. -/
theorem retry_header_matches_protocol_generation_witness :
    "PAYMENT-SIGNATURE" = "PAYMENT-SIGNATURE" ∧
      (createPaymentPayload "TX" fixtureRequirement
        "https://api.example.com/r").resource.isSome = true ∧
      ∃ sel ∈ (fixtureChallenge [fixtureRequirement]).accepts.getD [],
        (createPaymentPayload "TX" fixtureRequirement
          "https://api.example.com/r").accepted = some sel :=
  (retry_header_matches_protocol_generation
    (fixtureResp402Header [fixtureRequirement]) fixtureResp200
    (fun _ => .ok "TX") "https://api.example.com/r" 0
    { response := fixtureResp200, transportCalls := 2
    , retryHeader := some ("PAYMENT-SIGNATURE",
        createPaymentPayload "TX" fixtureRequirement
          "https://api.example.com/r") }
    "PAYMENT-SIGNATURE"
    (createPaymentPayload "TX" fixtureRequirement "https://api.example.com/r")
    (by decide) (by decide) rfl).1
    (fixtureChallenge [fixtureRequirement]) rfl

/-- Claim C10: a selected requirement carrying neither `amount` nor the
legacy `maxAmountRequired` never triggers the amount-exceeds-limit error
(the ceiling check reads the amount as zero, for every ceiling and every
assembler); negotiation proceeds into the assembler, which — after fee
payer, wallet address, `payTo` and `asset` resolution and with all ledger
reads succeeding — rejects it with the missing-amount error, and the
composed negotiation surfaces exactly that assembly error. -/
theorem missing_amount_deferred_to_assembler
    (wallet : WalletAdapter SolanaTx) (sel : PaymentRequirements)
    (ledger : Ledger) (firstResponse retryResponse : ClientResponse)
    (resourceUrl : String)
    (h402 : firstResponse.status = 402)
    (hfind : ((detectChallenge firstResponse).1.accepts.getD []).find?
      suitableRequirement = some sel)
    (hamt : sel.amount = none) (hlegacy : sel.maxAmountRequired = none)
    (hfp : optTruthy sel.feePayer = true)
    (haddr : optTruthy (jsOr? wallet.publicKey wallet.address) = true)
    (hpay : optTruthy sel.payTo = true)
    (hasset : optTruthy sel.asset = true)
    (hdec : ∀ mint programId, ∃ d,
      ledger.getMintDecimals mint programId = .ok d)
    (hacc : ∀ a, (ledger.accountOwner a).isSome = true) :
    (∀ (assemble : PaymentRequirements → Except String String)
        (maxValue : Int),
      paymentFetch firstResponse retryResponse assemble resourceUrl maxValue
        ≠ .error .amountExceedsLimit) ∧
    createSolanaPaymentTransaction wallet sel ledger =
      .error "Missing amount in payment requirements" ∧
    (∀ (serialize : SolanaTx → String) (maxValue : Int),
      paymentFetch firstResponse retryResponse
        (fun r => (createSolanaPaymentTransaction wallet r ledger).map
          serialize)
        resourceUrl maxValue =
        .error (.assemblyError "Missing amount in payment requirements")) := by
  have hzero : jsBigInt (jsStrOr sel.amount (jsStrOr sel.maxAmountRequired
      "0")) = some 0 := by
    rw [hamt, hlegacy]
    decide
  have hnoceil : ∀ maxValue : Int, ¬ (maxValue > 0 ∧ (0 : Int) > maxValue) := by
    intro maxValue h
    omega
  have hbuild : createSolanaPaymentTransaction wallet sel ledger =
      .error "Missing amount in payment requirements" := by
    have hnone : ∀ a, (ledger.accountOwner a).isNone = false := by
      intro a
      cases h : ledger.accountOwner a with
      | none =>
          have := hacc a
          rw [h] at this
          exact Bool.noConfusion this
      | some v => rfl
    obtain ⟨d, hd⟩ := hdec (sel.asset.getD "")
      (if ledger.accountOwner (sel.asset.getD "") ==
          some TOKEN_2022_PROGRAM_ID
        then TOKEN_2022_PROGRAM_ID else TOKEN_PROGRAM_ID)
    have hamt0 : optTruthy (jsOr? sel.amount sel.maxAmountRequired) =
        false := by
      rw [hamt, hlegacy]
      rfl
    simp only [createSolanaPaymentTransaction, hfp, haddr, hpay, hasset,
      hnone, hamt0, not_true, if_false, Bool.false_eq_true, not_false_iff,
      if_true]
    rw [hd]
  refine ⟨?_, hbuild, ?_⟩
  · intro assemble maxValue
    unfold paymentFetch
    rw [if_neg (by simp [h402])]
    simp only [hfind, hzero]
    rw [if_neg (hnoceil maxValue)]
    cases assemble sel with
    | error e => simp
    | ok tx => simp
  · intro serialize maxValue
    unfold paymentFetch
    rw [if_neg (by simp [h402])]
    simp only [hfind, hzero]
    rw [if_neg (hnoceil maxValue)]
    rw [show (createSolanaPaymentTransaction wallet sel ledger).map serialize
      = .error "Missing amount in payment requirements" by rw [hbuild]; rfl]

/-- Witness for C10: the fixture requirement with no amount fields on the
all-accounts-exist ledger. -/
theorem missing_amount_deferred_to_assembler_witness :
    createSolanaPaymentTransaction fixtureWallet fixtureReqNoAmount
      fixtureLedger = .error "Missing amount in payment requirements" :=
  (missing_amount_deferred_to_assembler fixtureWallet fixtureReqNoAmount
    fixtureLedger (fixtureResp402Header [fixtureReqNoAmount]) fixtureResp200
    "https://api.example.com/r" (by decide) (by decide) rfl rfl (by decide)
    (by decide) (by decide) (by decide) (fun _ _ => ⟨6, rfl⟩)
    (fun _ => rfl)).2.1
